import Mathlib

/-
Verification of the mcp4humans connection manager and response classifier.

The definitions below are a shallow embedding of the TypeScript sources:
  src/services/mcpClient.ts   (mcpConnect, mcpDisconnect, mcpIsServerConnected,
                               mcpGetTools, extractParametersFromSchema, mcpCallTool)
  src/utils/mcpUtils.ts       (mcpConnectAndBuildSchema)
  src/webviews/server/serverView.ts (the private method handling tool execution)

External effects (transport handshakes, the channel close call, the JSON.parse
library call, wall-clock time) are passed in as explicit parameters, so every
definition is a computable function of its inputs.
-/

set_option maxRecDepth 8000

/-- JsValue models a JavaScript value produced by JSON.parse: null, booleans,
numbers (restricted to integers, which covers every value appearing in the
statements below), strings, arrays and objects with ordered field lists. -/
inductive JsValue where
  | null
  | bool (b : Bool)
  | num (n : Int)
  | str (s : String)
  | arr (elems : List JsValue)
  | obj (fields : List (String × JsValue))
deriving Repr

/-- lookupLast finds the value bound to a key in an ordered field list, with
later bindings shadowing earlier ones, matching the final state of a
JavaScript object built left to right (object literals, spreads, and
JSON.parse all keep the last duplicate key). -/
def lookupLast {α : Type} : List (String × α) → String → Option α
  | [], _ => none
  | kv :: rest, k =>
    match lookupLast rest k with
    | some v => some v
    | none => if kv.1 = k then some kv.2 else none

mutual

/-- jsValueToString models the JavaScript String() conversion applied to a
parsed JSON value: strings pass through, numbers and booleans print, null
prints as the word null, arrays join their elements with commas (null
elements becoming empty), and objects print as the usual object tag. -/
def jsValueToString : JsValue → String
  | .null => "null"
  | .bool true => "true"
  | .bool false => "false"
  | .num n => toString n
  | .str s => s
  | .arr xs => jsArrJoin xs
  | .obj _ => "[object Object]"

/-- jsArrJoin models Array.prototype.toString: elements converted and joined
with commas, null elements contributing the empty string. -/
def jsArrJoin : List JsValue → String
  | [] => ""
  | [x] => match x with | .null => "" | _ => jsValueToString x
  | x :: y :: rest =>
    (match x with | .null => "" | _ => jsValueToString x) ++ "," ++ jsArrJoin (y :: rest)

end

/-- jsIsObjectLike is true exactly for values on which the JavaScript in
operator is defined (objects and arrays); on primitives the in operator
throws a TypeError, which the classifier catches. -/
def jsIsObjectLike : JsValue → Bool
  | .obj _ => true
  | .arr _ => true
  | _ => false

/-- jsTruthy models JavaScript truthiness for an optional string field:
present and nonempty. -/
def jsTruthy : Option String → Bool
  | some s => !s.isEmpty
  | none => false

/-- asciiLowerChar lowers one ASCII letter, leaving every other character
unchanged, matching toLowerCase on the ASCII range used here. -/
def asciiLowerChar (c : Char) : Char :=
  if 65 ≤ c.toNat && c.toNat ≤ 90 then Char.ofNat (c.toNat + 32) else c

/-- jsToLower models String.prototype.toLowerCase on ASCII strings. -/
def jsToLower (s : String) : String :=
  String.mk (s.data.map asciiLowerChar)

/-- charsStartsWith checks that the first character list begins with the
second. -/
def charsStartsWith : List Char → List Char → Bool
  | _, [] => true
  | [], _ :: _ => false
  | a :: as, b :: bs => a = b && charsStartsWith as bs

/-- jsStartsWith models String.prototype.startsWith. -/
def jsStartsWith (s p : String) : Bool :=
  charsStartsWith s.data p.data

/-- splitOnGo splits the remaining characters at each occurrence of the
separator, scanning left to right without overlap; the fuel argument is a
structural-recursion bound, one unit per examined character. -/
def splitOnGo (sep : List Char) : Nat → List Char → List Char → List (List Char)
  | _, [], acc => [acc.reverse]
  | 0, s, acc => [acc.reverse ++ s]
  | fuel + 1, c :: rest, acc =>
    if charsStartsWith (c :: rest) sep then
      acc.reverse :: splitOnGo sep fuel ((c :: rest).drop sep.length) []
    else splitOnGo sep fuel rest (c :: acc)

/-- jsSplitOn models String.prototype.split for a nonempty separator (every
separator used below is nonempty). -/
def jsSplitOn (s sep : String) : List String :=
  if sep.data.isEmpty then [s]
  else (splitOnGo sep.data (s.data.length + 1) s.data []).map String.mk

/-- isJsSpace recognizes the whitespace characters relevant to trim here. -/
def isJsSpace (c : Char) : Bool :=
  c = ' ' || c = '\n' || c = '\t' || c = '\r'

/-- jsTrim models String.prototype.trim: whitespace stripped from both
ends. -/
def jsTrim (s : String) : String :=
  String.mk (((s.data.dropWhile isJsSpace).reverse.dropWhile isJsSpace).reverse)

/-
Environment construction for STDIO connects, from mcpConnect in
src/services/mcpClient.ts:

    let env: Record<string, string> = {}
    if (process.env.PATH) { env.PATH = process.env.PATH }
    if (config.stdioConfig.environment) { env = { ...env, ...config.stdioConfig.environment } }

The parent process environment is passed in as a field list; the code reads
only its PATH entry.
-/

/-- buildStdioEnv computes the environment object handed to the spawned
subprocess: an empty object, plus the PATH of the parent process when that is
set and nonempty, with the user-supplied overlay spread on top. -/
def buildStdioEnv (parentEnv : List (String × String))
    (environment : Option (List (String × String))) : List (String × String) :=
  let base : List (String × String) :=
    match lookupLast parentEnv "PATH" with
    | some p => if p = "" then [] else [("PATH", p)]
    | none => []
  match environment with
  | some overlay => base ++ overlay
  | none => base

/-- SpawnPlan is the triple actually handed to StdioClientTransport:
command, argument list, and optional working directory. -/
structure SpawnPlan where
  command : String
  args : List String
  cwd : Option String
deriving Repr, DecidableEq

/-- prepareStdioSpawn mirrors the argument preparation in mcpConnect: the
working directory defaults to undefined when empty, and for the uv runner
with a working directory the directory flag is injected in front of the
arguments (unless already present) and the cwd spawn option is cleared. -/
def prepareStdioSpawn (cmd : String) (args : List String) (cwd : Option String) : SpawnPlan :=
  let cwd0 : Option String :=
    match cwd with
    | some c => if c = "" then none else some c
    | none => none
  match cwd0 with
  | some d =>
    if cmd = "uv" then
      let args2 :=
        if args.contains "--directory" || args.contains "-d" then args
        else "--directory" :: d :: args
      ⟨cmd, args2, none⟩
    else ⟨cmd, args, cwd0⟩
  | none => ⟨cmd, args, none⟩

/-
Tool parameter normalization, from extractParametersFromSchema in
src/services/mcpClient.ts.
-/

/-- ToolParameterType reproduces the enum of the same name in
src/models/types.ts. -/
inductive ToolParameterType where
  | STRING
  | NUMBER
  | BOOLEAN
  | OBJECT
  | ARRAY
deriving Repr, DecidableEq

/-- RawSchemaProp is one property of a raw JSON-schema properties map: an
optional type string and an optional description. -/
structure RawSchemaProp where
  type : Option String := none
  description : Option String := none
deriving Repr

/-- jsTypeToParamType reproduces the switch on prop.type: number and integer
map to NUMBER, boolean to BOOLEAN, array to ARRAY, object to OBJECT, and
every other or missing type falls to the default STRING case. -/
def jsTypeToParamType : Option String → ToolParameterType
  | some "number" => .NUMBER
  | some "integer" => .NUMBER
  | some "boolean" => .BOOLEAN
  | some "array" => .ARRAY
  | some "object" => .OBJECT
  | _ => .STRING

/-- jsIncludes models String.prototype.includes for a nonempty needle: the
needle occurs as a substring exactly when splitting on it yields more than
one piece. -/
def jsIncludes (s needle : String) : Bool :=
  (jsSplitOn s needle).length > 1

/-- extractParamDescription reproduces the description fallback: take the
schema property description when truthy, otherwise search the cleaned tool
description for the text after the first occurrence of the parameter name
followed by a colon, up to the next newline, trimmed and kept only when
nonempty. -/
def extractParamDescription (name : String) (prop : RawSchemaProp)
    (cleanToolDescription : String) : String :=
  let d0 := (prop.description.getD "")
  if d0 = "" && jsIncludes cleanToolDescription (name ++ ":") then
    let afterName := ((jsSplitOn cleanToolDescription (name ++ ":")).getD 1 "")
    let firstLine := jsTrim ((jsSplitOn afterName "\n").getD 0 "")
    if firstLine = "" then d0 else firstLine
  else d0

/-- ToolParameter is the normalized parameter record produced for each schema
property. -/
structure ToolParameter where
  name : String
  type : ToolParameterType
  required : Bool
  description : String
deriving Repr, DecidableEq

/-- extractParametersFromSchema normalizes a properties map (ordered as
Object.entries yields it) against an optional required list; a required
field that is not an array is treated as the empty list. -/
def extractParametersFromSchema (props : List (String × RawSchemaProp))
    (required : Option (List String)) (cleanToolDescription : String) : List ToolParameter :=
  let req := required.getD []
  props.map fun nv =>
    { name := nv.1
      type := jsTypeToParamType nv.2.type
      required := req.contains nv.1
      description := extractParamDescription nv.1 nv.2 cleanToolDescription }

/-
HTTP transport negotiation, from the TransportType.HTTP branch of mcpConnect.
The outcome of each handshake attempt is an input: none means the attempt
succeeded, some msg means it failed with that error message.
-/

/-- HttpProto names the two HTTP sub-protocols tried in order. -/
inductive HttpProto where
  | streamableHttp
  | sse
deriving Repr, DecidableEq

/-- HttpAttempt records one handshake attempt: which sub-protocol, against
which URL, and with which header map. -/
structure HttpAttempt where
  proto : HttpProto
  url : String
  headers : Option (List (String × String))
deriving Repr, DecidableEq

/-- HttpConnectOutcome is the observable result of the HTTP branch: the final
result (connected protocol or combined error), the ordered list of handshake
attempts made, and the log entries written (message, isError). -/
structure HttpConnectOutcome where
  result : Except String HttpProto
  attempts : List HttpAttempt
  log : List (String × Bool)
deriving Repr

/-- mcpConnectHttp reproduces the HTTP branch of mcpConnect: first a
StreamableHTTP attempt; on failure one SSE attempt against the same URL and
headers; when both fail the combined error message is returned. -/
def mcpConnectHttp (url : String) (headers : Option (List (String × String)))
    (streamableResult sseResult : Option String) : HttpConnectOutcome :=
  match streamableResult with
  | none =>
    { result := .ok .streamableHttp
      attempts := [⟨.streamableHttp, url, headers⟩]
      log := [("Connected (StreamableHTTP)", false)] }
  | some streamableErrorMessage =>
    match sseResult with
    | none =>
      { result := .ok .sse
        attempts := [⟨.streamableHttp, url, headers⟩, ⟨.sse, url, headers⟩]
        log := [("StreamableHTTP connection failed", true), ("Connected (SSE Fallback)", false)] }
    | some sseErrorMessage =>
      { result := .error ("Failed to connect. StreamableHTTP Error: " ++ streamableErrorMessage
          ++ ". SSE Fallback Error: " ++ sseErrorMessage)
        attempts := [⟨.streamableHttp, url, headers⟩, ⟨.sse, url, headers⟩]
        log := [("StreamableHTTP connection failed", true),
                ("Connection failed (SSE Fallback)", true)] }

/-
Session registry, from the activeClients record in src/services/mcpClient.ts.
All claims concern operations against a single server name, so the state is
the registry entry for that name, plus bookkeeping of which transport
channels have been opened and not yet successfully closed (a channel stays
open until client.close() succeeds; mcpConnect never closes a previously
registered client).
-/

/-- ClientRegistry is the per-server-name registry state: the currently
registered session id (the activeClients entry), the ids of channels opened
and not successfully closed, and the next fresh session id. -/
structure ClientRegistry where
  activeClient : Option Nat
  openChannels : List Nat
  nextId : Nat
deriving Repr, DecidableEq

/-- regInit is the empty registry: nothing registered, no open channel. -/
def regInit : ClientRegistry := ⟨none, [], 0⟩

/-- mcpIsServerConnected reproduces the lookup in mcpClient.ts: the server
counts as connected exactly when the registry holds an entry for its name. -/
def mcpIsServerConnected (s : ClientRegistry) : Bool :=
  s.activeClient.isSome

/-- registerClient models the assignment activeClients[config.name] = client
after a successful transport connect: a fresh channel is open and becomes
the registered entry, unconditionally overwriting any previous entry; the
previous client is not closed. -/
def registerClient (s : ClientRegistry) : ClientRegistry :=
  ⟨some s.nextId, s.nextId :: s.openChannels, s.nextId + 1⟩

/-- mcpConnect models a connect call whose transport-level outcome is the
given flag: on success the new client is registered (overwriting), on
failure the registry is untouched. Returns the new state and the success
flag of the returned ApiResponse. -/
def mcpConnect (s : ClientRegistry) (transportOk : Bool) : ClientRegistry × Bool :=
  if transportOk then (registerClient s, true) else (s, false)

/-- mcpDisconnect reproduces mcpDisconnect in mcpClient.ts: with no entry it
fails; otherwise client.close() is awaited (its outcome is the closeOk
input) and only after a successful close is the entry deleted; when close
throws, the catch block returns failure and the entry is left in place. -/
def mcpDisconnect (s : ClientRegistry) (closeOk : Bool) : ClientRegistry × Bool :=
  match s.activeClient with
  | none => (s, false)
  | some i =>
    if closeOk then (⟨none, s.openChannels.erase i, s.nextId⟩, true)
    else (s, false)

/-- RegOp is one registry operation together with the outcome of its external
effect: a connect whose transport attempt succeeds or fails, or a disconnect
whose underlying close succeeds or throws. -/
inductive RegOp where
  | connect (transportOk : Bool)
  | disconnect (closeOk : Bool)
deriving Repr, DecidableEq

/-- regStep applies one operation to the registry state. -/
def regStep (s : ClientRegistry) : RegOp → ClientRegistry
  | .connect ok => (mcpConnect s ok).1
  | .disconnect ok => (mcpDisconnect s ok).1

/-- regRun folds a sequence of operations from a starting state. -/
def regRun (s : ClientRegistry) : List RegOp → ClientRegistry
  | [] => s
  | op :: rest => regRun (regStep s op) rest

/-- mcpConnectAndBuildSchema reproduces the orchestration in
src/utils/mcpUtils.ts: connect; on connect failure stop; then fetch tools;
on fetch failure call mcpDisconnect (ignoring its outcome) and fail; on
fetch success succeed. The external outcomes (transport, fetch, close) are
inputs. Returns the final registry state and the overall success. -/
def mcpConnectAndBuildSchema (s : ClientRegistry)
    (transportOk fetchOk closeOk : Bool) : ClientRegistry × Bool :=
  let c := mcpConnect s transportOk
  if !c.2 then (c.1, false)
  else if fetchOk then (c.1, true)
  else ((mcpDisconnect c.1 closeOk).1, false)

/-
Tool invocation and response classification, from mcpCallTool in
src/services/mcpClient.ts and the tool-execution handler in
src/webviews/server/serverView.ts.
-/

/-- ContentItem is one entry of the content list of a tool response, with the
duck-typed fields the classifier inspects. The parsed field carries the
outcome of the JSON.parse library call on the text field (none when parsing
throws), supplied as an input to the embedding. -/
structure ContentItem where
  type : String
  data : Option String := none
  mimeType : Option String := none
  text : Option String := none
  parsed : Option JsValue := none
deriving Repr

/-- ToolCallResult is the raw object resolved by client.callTool. The isError
field models the top-level error flag (JavaScript truthiness collapsed to a
Bool: every truthy flag value is intercepted before the strict comparison in
the webview can see it, so a Bool loses nothing). status models an optional
top-level status field used by the no-content branch. -/
structure ToolCallResult where
  isError : Bool := false
  errorMsg : Option String := none
  content : Option (List ContentItem) := none
  status : Option JsValue := none
deriving Repr

/-- toolErrMsg reproduces the expression result.error or the unknown-error
fallback used to build the failure message (empty string is falsy). -/
def toolErrMsg (r : ToolCallResult) : String :=
  match r.errorMsg with
  | some s => if s = "" then "Unknown tool error" else s
  | none => "Unknown tool error"

/-- ApiResp mirrors the ApiResponse record of src/models/types.ts. -/
structure ApiResp (α : Type) where
  success : Bool
  data : Option α := none
  error : Option String := none
deriving Repr

/-- CallOutcome is the behavior of the awaited client.callTool call: it
either throws with a message or resolves to a raw result object. -/
inductive CallOutcome where
  | threw (msg : String)
  | returned (r : ToolCallResult)
deriving Repr

/-- mcpCallTool reproduces mcpCallTool in mcpClient.ts: missing session gives
an immediate failure; a throw is caught and returned as failure; a resolved
result with a truthy error flag is returned as failure carrying the built
message and the raw result; otherwise success with the raw result. -/
def mcpCallTool (connected : Bool) (serverName : String) (call : CallOutcome) :
    ApiResp ToolCallResult :=
  if !connected then
    { success := false, error := some ("No active connection for server: " ++ serverName) }
  else
    match call with
    | .threw m => { success := false, error := some m }
    | .returned r =>
      if r.isError then
        { success := false
          data := some r
          error := some ("Tool execution resulted in an error: " ++ toolErrMsg r) }
      else { success := true, data := some r }

/-- ResultType is the resultType field of the posted toolResult message:
success, failed (tool-level failure), or error (call-level failure). -/
inductive ResultType where
  | success
  | failed
  | error
deriving Repr, DecidableEq

/-- ResultPayload is the data field of the posted toolResult message. -/
inductive ResultPayload where
  | errText (s : String)
  | image (data mime : String)
  | json (j : JsValue)
  | text (s : String)
  | raw (r : ToolCallResult)
  | undef
deriving Repr

/-- ToolDelivery is the observable outcome of one tool execution in the
webview: the posted classification, the contentType field (absent on the
early error return), the payload, and the number of milliseconds after the
start of the call at which the message is posted. -/
structure ToolDelivery where
  resultType : ResultType
  contentType : Option String
  payload : ResultPayload
  deliveredAt : Nat
deriving Repr

/-- statusIsError reproduces the status check: when the parsed value is an
object whose status key is present (in-operator on its fields), the String
conversion of that value lowercased must equal the word error. Arrays admit
the in-operator but have no status key; the primitive case never reaches
this check because the in-operator throws first. -/
def statusIsError (j : JsValue) : Bool :=
  match j with
  | .obj fields =>
    match lookupLast fields "status" with
    | some v => jsToLower (jsValueToString v) = "error"
    | none => false
  | _ => false

/-- textResultOf reproduces the plain-text branch of the classifier: failed
when the error flag was set or the lowercased text starts with the word
error; contentType text. -/
def textResultOf (isErr : Bool) (t : String) : ResultType × Option String × ResultPayload :=
  let failed := isErr || jsStartsWith (jsToLower t) "error"
  (if failed then .failed else .success, some "text", .text t)

/-- classifyContent reproduces the content-entry classification in the
webview handler: image entries (type image with truthy data and mimeType)
keep their mime type; text entries are JSON.parsed, and when the parse
yields an object or array the json branch runs (with the status heuristic),
while a parse failure or a parsed primitive (on which the in-operator
throws into the catch) falls to the plain-text branch; anything else is
posted raw. -/
def classifyContent (r : ToolCallResult) (c : ContentItem) :
    ResultType × Option String × ResultPayload :=
  let isErr := r.isError
  if c.type = "image" && jsTruthy c.data && jsTruthy c.mimeType then
    (if isErr then .failed else .success, some "image",
      .image (c.data.getD "") (c.mimeType.getD ""))
  else if c.type = "text" && c.text.isSome then
    let t := c.text.getD ""
    match c.parsed with
    | some j =>
      if jsIsObjectLike j then
        let failed := isErr || statusIsError j
        (if failed then .failed else .success, some "json", .json j)
      else textResultOf isErr t
    | none => textResultOf isErr t
  else
    (if isErr then .failed else .success, some "raw", .raw r)

/-- classifyRegular reproduces the branch for responses without a nonempty
content list: the raw result object is posted, failed exactly when its
top-level status field converts (lowercased) to the word error. -/
def classifyRegular (r : ToolCallResult) : ResultType × Option String × ResultPayload :=
  let failed : Bool :=
    match r.status with
    | some v => jsToLower (jsValueToString v) = "error"
    | none => false
  (if failed then .failed else .success, some "raw", .raw r)

/-- handleExecuteTool reproduces the tool-execution handler in
serverView.ts: an unsuccessful ApiResponse is posted immediately (resultType
error, no contentType, elapsed time of the call); a successful one is first
delayed to the 200ms floor, then classified by content shape. -/
def handleExecuteTool (resp : ApiResp ToolCallResult) (callMs : Nat) : ToolDelivery :=
  if !resp.success then
    ⟨.error, none, .errText (resp.error.getD ""), callMs⟩
  else
    let deliveredAt := max callMs 200
    match resp.data with
    | some r =>
      match r.content with
      | some (c :: _) =>
        let o := classifyContent r c
        ⟨o.1, o.2.1, o.2.2, deliveredAt⟩
      | some [] =>
        let o := classifyRegular r
        ⟨o.1, o.2.1, o.2.2, deliveredAt⟩
      | none =>
        let o := classifyRegular r
        ⟨o.1, o.2.1, o.2.2, deliveredAt⟩
    | none => ⟨.success, some "raw", .undef, deliveredAt⟩

/-- executeToolPipeline composes the client call and the webview handler:
this is the full path from pressing Send to the posted toolResult message. -/
def executeToolPipeline (connected : Bool) (serverName : String)
    (call : CallOutcome) (callMs : Nat) : ToolDelivery :=
  handleExecuteTool (mcpCallTool connected serverName call) callMs

/-- textOnlyResult is a response whose only content entry is a text entry
with the given text and parse outcome, and with no error flag. -/
def textOnlyResult (t : String) (p : Option JsValue) : ToolCallResult :=
  { isError := false
    content := some [{ type := "text", text := some t, parsed := p }] }

/-
Theorems. Each claim has one theorem; corrected claims also have a closed
counterexample showing the original wording fails on the embedded code.
-/

/-- C1: for every HTTP connect, the StreamableHTTP sub-protocol is attempted
first; exactly one SSE fallback attempt is made, against the same URL and
headers, if and only if the first attempt fails; a connect error is returned
only when both attempts fail, and its message contains both failure
messages. -/
theorem c1_http_fallback (url : String) (headers : Option (List (String × String)))
    (streamableResult sseResult : Option String) :
    (mcpConnectHttp url headers streamableResult sseResult).attempts.head? =
        some ⟨.streamableHttp, url, headers⟩
    ∧ (streamableResult = none →
        (mcpConnectHttp url headers streamableResult sseResult).result = .ok .streamableHttp
        ∧ (mcpConnectHttp url headers streamableResult sseResult).attempts =
            [⟨.streamableHttp, url, headers⟩])
    ∧ (∀ m1, streamableResult = some m1 →
        (mcpConnectHttp url headers streamableResult sseResult).attempts =
          [⟨.streamableHttp, url, headers⟩, ⟨.sse, url, headers⟩])
    ∧ (∀ m1, streamableResult = some m1 → sseResult = none →
        (mcpConnectHttp url headers streamableResult sseResult).result = .ok .sse)
    ∧ ((∃ e, (mcpConnectHttp url headers streamableResult sseResult).result = .error e) ↔
        streamableResult ≠ none ∧ sseResult ≠ none)
    ∧ (∀ m1 m2, streamableResult = some m1 → sseResult = some m2 →
        ∃ a b, (mcpConnectHttp url headers streamableResult sseResult).result =
          .error (a ++ m1 ++ b ++ m2)) := by
  cases streamableResult with
  | none =>
    refine ⟨rfl, fun _ => ⟨rfl, rfl⟩, ?_, ?_, ?_, ?_⟩
    · intro m1 h; cases h
    · intro m1 h; cases h
    · simp [mcpConnectHttp]
    · intro m1 m2 h; cases h
  | some m1 =>
    cases sseResult with
    | none =>
      refine ⟨rfl, ?_, ?_, ?_, ?_, ?_⟩
      · intro h; cases h
      · intro m h; exact rfl
      · intro m h _; exact rfl
      · simp [mcpConnectHttp]
      · intro m1x m2 _ h; cases h
    | some m2 =>
      refine ⟨rfl, ?_, ?_, ?_, ?_, ?_⟩
      · intro h; cases h
      · intro m h; exact rfl
      · intro m _ h; cases h
      · simp [mcpConnectHttp]
      · intro m1x m2x h1 h2
        cases h1; cases h2
        exact ⟨"Failed to connect. StreamableHTTP Error: ", ". SSE Fallback Error: ", rfl⟩

/-- Witness for C1 at a concrete input: both sub-protocols fail, the attempt
trace shows StreamableHTTP then SSE against the same URL and headers, and
the combined error carries both messages. -/
theorem c1_witness :
    (mcpConnectHttp "http://host/mcp" none (some "boom") (some "bust")).attempts =
      [⟨.streamableHttp, "http://host/mcp", none⟩, ⟨.sse, "http://host/mcp", none⟩]
    ∧ (∃ a b, (mcpConnectHttp "http://host/mcp" none (some "boom") (some "bust")).result =
        .error (a ++ "boom" ++ b ++ "bust")) := by
  have h := c1_http_fallback "http://host/mcp" none (some "boom") (some "bust")
  exact ⟨h.2.2.1 "boom" rfl, h.2.2.2.2.2 "boom" "bust" rfl rfl⟩

/-- C2 counterexample: after one successful connect the registered session is
0 and its channel is open; a second successful connect overwrites the entry
with session 1 while channel 0 is still open, so the first session was
overwritten without being torn down, contrary to the claim. -/
theorem c2_counterexample :
    (regRun regInit [RegOp.connect true]).activeClient = some 0
    ∧ 0 ∈ (regRun regInit [RegOp.connect true]).openChannels
    ∧ (regRun regInit [RegOp.connect true, RegOp.connect true]).activeClient = some 1
    ∧ 0 ∈ (regRun regInit [RegOp.connect true, RegOp.connect true]).openChannels := by
  decide

/-- C2 amended: over every operation sequence the registry holds at most one
session per name, and a successful disconnect leaves the name disconnected;
however a second successful connect overwrites the registry entry while the
previously registered session stays open (it is not torn down first). -/
theorem c2_registry_uniqueness :
    (∀ ops i j, (regRun regInit ops).activeClient = some i →
        (regRun regInit ops).activeClient = some j → i = j)
    ∧ (∀ s : ClientRegistry, ∀ i, s.activeClient = some i →
        (mcpConnect s true).1.activeClient = some s.nextId
        ∧ (i ∈ s.openChannels → i ∈ (mcpConnect s true).1.openChannels))
    ∧ (∀ s : ClientRegistry, ∀ closeOk : Bool, (mcpDisconnect s closeOk).2 = true →
        mcpIsServerConnected (mcpDisconnect s closeOk).1 = false) := by
  refine ⟨?_, ?_, ?_⟩
  · intro ops i j hi hj
    rw [hi] at hj
    exact (Option.some_injective _ hj).symm ▸ rfl
  · intro s i _
    refine ⟨rfl, fun hm => ?_⟩
    simp [mcpConnect, registerClient]
    exact Or.inr hm
  · intro s closeOk h
    cases hs : s.activeClient with
    | none => simp [mcpDisconnect, hs] at h
    | some i =>
      cases closeOk with
      | false => simp [mcpDisconnect, hs] at h
      | true => simp [mcpDisconnect, mcpIsServerConnected, hs]

/-- Witness for C2 at a concrete state: a connect on a state with session 5
registered re-registers session 6 while channel 5 stays open, and a
successful disconnect yields a disconnected name. -/
theorem c2_witness :
    (mcpConnect ⟨some 5, [5], 6⟩ true).1.activeClient = some 6
    ∧ 5 ∈ (mcpConnect ⟨some 5, [5], 6⟩ true).1.openChannels
    ∧ mcpIsServerConnected (mcpDisconnect ⟨some 5, [5], 6⟩ true).1 = false := by
  have h := c2_registry_uniqueness
  have hb := h.2.1 ⟨some 5, [5], 6⟩ 5 rfl
  exact ⟨hb.1, hb.2 (by decide), h.2.2 ⟨some 5, [5], 6⟩ true (by decide)⟩

/-- C3 counterexample: connect succeeds, the tool fetch fails, and the close
call of the automatic teardown throws; the overall operation fails but the
session is still registered, so isConnected is true, contrary to the
claim. -/
theorem c3_counterexample :
    (mcpConnectAndBuildSchema regInit true false false).2 = false
    ∧ mcpIsServerConnected (mcpConnectAndBuildSchema regInit true false false).1 = true := by
  decide

/-- C3 amended: when connect succeeds and the tool fetch fails, teardown is
attempted and the overall operation fails; afterwards isConnected is false
provided the underlying close succeeds, while a throwing close leaves the
just-registered session in place. -/
theorem c3_tool_fetch_rollback (s : ClientRegistry) (closeOk : Bool) :
    (mcpConnectAndBuildSchema s true false closeOk).2 = false
    ∧ (closeOk = true →
        mcpIsServerConnected (mcpConnectAndBuildSchema s true false closeOk).1 = false)
    ∧ (closeOk = false →
        (mcpConnectAndBuildSchema s true false closeOk).1.activeClient = some s.nextId) := by
  cases closeOk with
  | true =>
    refine ⟨rfl, ?_, ?_⟩
    · intro _
      simp [mcpConnectAndBuildSchema, mcpConnect, registerClient, mcpDisconnect,
        mcpIsServerConnected]
    · intro h; cases h
  | false =>
    refine ⟨rfl, ?_, ?_⟩
    · intro h; cases h
    · intro _
      simp [mcpConnectAndBuildSchema, mcpConnect, registerClient, mcpDisconnect]

/-- Witness for C3 at a concrete input: starting from the empty registry with
a succeeding close, the failed tool fetch rolls the connect back. -/
theorem c3_witness :
    (mcpConnectAndBuildSchema regInit true false true).2 = false
    ∧ mcpIsServerConnected (mcpConnectAndBuildSchema regInit true false true).1 = false := by
  have h := c3_tool_fetch_rollback regInit true
  exact ⟨h.1, h.2.1 rfl⟩

/-- lbraceStr is a left curly brace as a string. -/
def lbraceStr : String := String.mk [Char.ofNat 123]

/-- rbraceStr is a right curly brace as a string. -/
def rbraceStr : String := String.mk [Char.ofNat 125]

/-- jsonStatusText renders a one-field JSON object whose status field holds
the given string, used as concrete response text in the statements below. -/
def jsonStatusText (s : String) : String :=
  lbraceStr ++ "\"status\": \"" ++ s ++ "\"" ++ rbraceStr

/-- c4Payload is a tool response carrying both the explicit top-level error
flag and text content that parses as a JSON object with a status field equal
to the word success. -/
def c4Payload : ToolCallResult :=
  { isError := true
    content := some [{ type := "text", text := some (jsonStatusText "success"),
                       parsed := some (.obj [("status", .str "success")]) }] }

/-- C4 counterexample: the flagged payload with status success text is
delivered with resultType error (the label shared with transport errors),
not with the ToolFailure label failed, contrary to the claim. -/
theorem c4_counterexample :
    (executeToolPipeline true "srv" (.returned c4Payload) 250).resultType = ResultType.error
    ∧ (executeToolPipeline true "srv" (.returned c4Payload) 250).resultType ≠ ResultType.failed
    ∧ (executeToolPipeline true "srv" (.returned c4Payload) 250).contentType = none := by
  decide

/-- C4 amended: a completed call whose payload carries the explicit error
flag is intercepted by the client layer and returned as an unsuccessful
response, so the webview delivers it as resultType error with the built
error message as payload; it is never classified success, and the text/JSON
sniffing heuristics never run (the flag takes precedence), but the label is
the transport-error label error rather than failed. -/
theorem c4_flag_forces_failure (r : ToolCallResult) (name : String) (ms : Nat)
    (h : r.isError = true) :
    (executeToolPipeline true name (.returned r) ms).resultType = ResultType.error
    ∧ (executeToolPipeline true name (.returned r) ms).resultType ≠ ResultType.success
    ∧ (executeToolPipeline true name (.returned r) ms).payload =
        .errText ("Tool execution resulted in an error: " ++ toolErrMsg r)
    ∧ (executeToolPipeline true name (.returned r) ms).contentType = none := by
  simp [executeToolPipeline, mcpCallTool, handleExecuteTool, h]

/-- Witness for C4 at the concrete flagged payload. -/
theorem c4_witness :
    (executeToolPipeline true "srv" (.returned c4Payload) 10).resultType = ResultType.error
    ∧ (executeToolPipeline true "srv" (.returned c4Payload) 10).resultType ≠ ResultType.success
    ∧ (executeToolPipeline true "srv" (.returned c4Payload) 10).payload =
        .errText ("Tool execution resulted in an error: " ++ toolErrMsg c4Payload)
    ∧ (executeToolPipeline true "srv" (.returned c4Payload) 10).contentType = none :=
  c4_flag_forces_failure c4Payload "srv" 10 rfl

/-- textPipelineEq computes the full delivery for an unflagged response whose
single content entry is text, by the shape of the parse outcome. -/
theorem textPipelineEq (name : String) (ms : Nat) (t : String) (p : Option JsValue) :
    executeToolPipeline true name (.returned (textOnlyResult t p)) ms =
      match p with
      | some j =>
        if jsIsObjectLike j then
          ⟨if statusIsError j then .failed else .success, some "json", .json j, max ms 200⟩
        else
          ⟨if jsStartsWith (jsToLower t) "error" then .failed else .success,
            some "text", .text t, max ms 200⟩
      | none =>
        ⟨if jsStartsWith (jsToLower t) "error" then .failed else .success,
          some "text", .text t, max ms 200⟩ := by
  cases p with
  | none =>
    simp [executeToolPipeline, mcpCallTool, textOnlyResult, handleExecuteTool,
      classifyContent, textResultOf, jsTruthy]
  | some j =>
    by_cases hobj : jsIsObjectLike j = true
    · simp [executeToolPipeline, mcpCallTool, textOnlyResult, handleExecuteTool,
        classifyContent, textResultOf, jsTruthy, hobj]
    · simp [executeToolPipeline, mcpCallTool, textOnlyResult, handleExecuteTool,
        classifyContent, textResultOf, jsTruthy, hobj]

/-- C5 counterexample: the text 5 parses as JSON (to the number 5), yet the
delivery has content kind text, not json, because the status check via the
in-operator throws on a primitive and lands in the catch block, contrary to
the claim that any parsing text yields the structured-JSON kind. -/
theorem c5_counterexample :
    (executeToolPipeline true "srv" (.returned (textOnlyResult "5" (some (.num 5)))) 300).contentType
      = some "text"
    ∧ (executeToolPipeline true "srv" (.returned (textOnlyResult "5" (some (.num 5)))) 300).contentType
      ≠ some "json"
    ∧ (executeToolPipeline true "srv" (.returned (textOnlyResult "5" (some (.num 5)))) 300).resultType
      = ResultType.success := by
  decide

/-- C5 amended: for an unflagged response whose first content entry is text,
a parse yielding an object or array gives content kind json with failure
exactly when the status field lowercases to the word error; a parse failure,
or a parse yielding a primitive (number, string, boolean or null, on which
the status membership test throws into the catch block), gives content kind
text with failure exactly when the lowercased text starts with the word
error. -/
theorem c5_text_classification (name : String) (ms : Nat) (t : String) (p : Option JsValue) :
    (∀ j, p = some j → jsIsObjectLike j = true →
      (executeToolPipeline true name (.returned (textOnlyResult t p)) ms).contentType = some "json"
      ∧ ((executeToolPipeline true name (.returned (textOnlyResult t p)) ms).resultType
          = ResultType.failed ↔ statusIsError j = true)
      ∧ ((executeToolPipeline true name (.returned (textOnlyResult t p)) ms).resultType
          = ResultType.success ↔ statusIsError j = false))
    ∧ (∀ j, p = some j → jsIsObjectLike j = false →
      (executeToolPipeline true name (.returned (textOnlyResult t p)) ms).contentType = some "text"
      ∧ ((executeToolPipeline true name (.returned (textOnlyResult t p)) ms).resultType
          = ResultType.failed ↔ jsStartsWith (jsToLower t) "error" = true))
    ∧ (p = none →
      (executeToolPipeline true name (.returned (textOnlyResult t p)) ms).contentType = some "text"
      ∧ ((executeToolPipeline true name (.returned (textOnlyResult t p)) ms).resultType
          = ResultType.failed ↔ jsStartsWith (jsToLower t) "error" = true)) := by
  refine ⟨?_, ?_, ?_⟩
  · intro j hp hobj
    subst hp
    rw [textPipelineEq]
    cases hb : statusIsError j <;> simp [hobj, hb]
  · intro j hp hobj
    subst hp
    rw [textPipelineEq]
    cases hb : jsStartsWith (jsToLower t) "error" <;> simp [hobj, hb]
  · intro hp
    subst hp
    rw [textPipelineEq]
    cases hb : jsStartsWith (jsToLower t) "error" <;> simp [hb]

/-- Witness for C5 at concrete inputs: a JSON object with status error is
delivered as failed json, and a plain text starting with Error is delivered
as failed text. -/
theorem c5_witness :
    (executeToolPipeline true "srv"
        (.returned (textOnlyResult (jsonStatusText "error")
          (some (.obj [("status", .str "error")])))) 10).contentType = some "json"
    ∧ ((executeToolPipeline true "srv"
        (.returned (textOnlyResult (jsonStatusText "error")
          (some (.obj [("status", .str "error")])))) 10).resultType = ResultType.failed
        ↔ statusIsError (.obj [("status", .str "error")]) = true)
    ∧ (executeToolPipeline true "srv"
        (.returned (textOnlyResult "Error: file not found" none)) 10).contentType = some "text"
    ∧ ((executeToolPipeline true "srv"
        (.returned (textOnlyResult "Error: file not found" none)) 10).resultType
        = ResultType.failed
        ↔ jsStartsWith (jsToLower "Error: file not found") "error" = true) := by
  have h1 := c5_text_classification "srv" 10 (jsonStatusText "error")
    (some (.obj [("status", .str "error")]))
  have h2 := c5_text_classification "srv" 10 "Error: file not found" none
  have ha := h1.1 (.obj [("status", .str "error")]) rfl (by decide)
  have hb := h2.2.2 rfl
  exact ⟨ha.1, ha.2.1, hb.1, hb.2⟩

/-- C6 counterexample: a call that throws after 10 milliseconds is delivered
immediately at 10 milliseconds, well under the 200 millisecond floor,
contrary to the claim that no result is ever delivered under the floor. -/
theorem c6_counterexample :
    (executeToolPipeline true "srv" (.threw "boom") 10).deliveredAt = 10
    ∧ (executeToolPipeline true "srv" (.threw "boom") 10).resultType = ResultType.error
    ∧ (10 : Nat) < 200 := by
  decide

/-- C6 amended: a successful response is delivered at the maximum of the
call duration and the 200 millisecond floor (hence never under the floor),
while an unsuccessful response is delivered immediately when the call
completes, skipping the floor. -/
theorem c6_latency_floor (resp : ApiResp ToolCallResult) (ms : Nat) :
    (resp.success = true →
      (handleExecuteTool resp ms).deliveredAt = max ms 200
      ∧ 200 ≤ (handleExecuteTool resp ms).deliveredAt)
    ∧ (resp.success = false → (handleExecuteTool resp ms).deliveredAt = ms) := by
  constructor
  · intro h
    have hd : (handleExecuteTool resp ms).deliveredAt = max ms 200 := by
      cases hdata : resp.data with
      | none => simp [handleExecuteTool, h, hdata]
      | some r =>
        cases hc : r.content with
        | none => simp [handleExecuteTool, h, hdata, hc]
        | some l =>
          cases l with
          | nil => simp [handleExecuteTool, h, hdata, hc]
          | cons c cs => simp [handleExecuteTool, h, hdata, hc]
    exact ⟨hd, by rw [hd]; exact le_max_right ms 200⟩
  · intro h
    simp [handleExecuteTool, h]

/-- Witness for C6 at concrete inputs: a fast successful call is delayed to
the floor, a fast failing call is delivered at once. -/
theorem c6_witness :
    (handleExecuteTool (mcpCallTool true "srv" (.returned (textOnlyResult "ok" none))) 10).deliveredAt
      = max 10 200
    ∧ (handleExecuteTool (mcpCallTool true "srv" (.threw "x")) 10).deliveredAt = 10 := by
  have h1 := c6_latency_floor (mcpCallTool true "srv" (.returned (textOnlyResult "ok" none))) 10
  have h2 := c6_latency_floor (mcpCallTool true "srv" (.threw "x")) 10
  exact ⟨(h1.1 rfl).1, h2.2 rfl⟩

/-- lookupLastAppend: looking up a key in a concatenation finds the binding
of the right part first (later bindings win), falling back to the left
part. -/
theorem lookupLastAppend {α : Type} (a b : List (String × α)) (k : String) :
    lookupLast (a ++ b) k =
      match lookupLast b k with
      | some v => some v
      | none => lookupLast a k := by
  induction a with
  | nil =>
    cases hb : lookupLast b k <;> simp [lookupLast, hb]
  | cons kv rest ih =>
    cases hb : lookupLast b k <;>
      cases hr : lookupLast rest k <;>
        simp [lookupLast, List.cons_append, ih, hb, hr]

/-- C7 counterexample: a parent environment with PATH and HOME set and an
overlay not mentioning HOME produces a child environment with no HOME entry,
so the inherited environment is not merged in (it is replaced except for
PATH), contrary to the claim. -/
theorem c7_counterexample :
    lookupLast [("PATH", "/usr/bin"), ("HOME", "/home/u")] "HOME" = some "/home/u"
    ∧ lookupLast [("FOO", "1")] "HOME" = none
    ∧ lookupLast
        (buildStdioEnv [("PATH", "/usr/bin"), ("HOME", "/home/u")] (some [("FOO", "1")]))
        "HOME" = none := by
  decide

/-- C7 amended: the environment passed to the spawned subprocess consists of
the inherited PATH variable alone (when set and nonempty) with the
user-supplied overlay merged on top: a lookup finds the overlay binding
first, then the inherited PATH for the PATH key only, and nothing else; in
particular PATH survives whenever the parent sets it nonempty and the
overlay does not override it. -/
theorem c7_env_only_path (parentEnv overlay : List (String × String)) (k : String) :
    (lookupLast (buildStdioEnv parentEnv (some overlay)) k =
      match lookupLast overlay k with
      | some v => some v
      | none =>
        if k = "PATH" then
          match lookupLast parentEnv "PATH" with
          | some p => if p = "" then none else some p
          | none => none
        else none)
    ∧ (∀ p, lookupLast parentEnv "PATH" = some p → p ≠ "" →
        lookupLast overlay "PATH" = none →
        lookupLast (buildStdioEnv parentEnv (some overlay)) "PATH" = some p) := by
  constructor
  · cases ho : lookupLast overlay k with
    | some v => simp [buildStdioEnv, lookupLastAppend, ho]
    | none =>
      by_cases hk : k = "PATH"
      · subst hk
        cases hp : lookupLast parentEnv "PATH" with
        | none => simp [buildStdioEnv, lookupLastAppend, ho, hp, lookupLast]
        | some p =>
          by_cases hpe : p = ""
          · simp [buildStdioEnv, lookupLastAppend, ho, hp, hpe, lookupLast]
          · simp [buildStdioEnv, lookupLastAppend, ho, hp, hpe, lookupLast]
      · have hk2 : ¬ ("PATH" = k) := fun h => hk h.symm
        cases hp : lookupLast parentEnv "PATH" with
        | none => simp [buildStdioEnv, lookupLastAppend, ho, hp, hk, lookupLast]
        | some p =>
          by_cases hpe : p = ""
          · simp [buildStdioEnv, lookupLastAppend, ho, hp, hpe, hk, hk2, lookupLast]
          · simp [buildStdioEnv, lookupLastAppend, ho, hp, hpe, hk, hk2, lookupLast]
  · intro p hp hne ho
    simp [buildStdioEnv, lookupLastAppend, ho, hp, hne, lookupLast]

/-- Witness for C7 at a concrete input: the inherited PATH survives into the
child environment when the overlay does not override it. -/
theorem c7_witness :
    lookupLast
      (buildStdioEnv [("PATH", "/usr/bin"), ("HOME", "/home/u")] (some [("FOO", "1")]))
      "PATH" = some "/usr/bin" := by
  have h := c7_env_only_path [("PATH", "/usr/bin"), ("HOME", "/home/u")] [("FOO", "1")] "PATH"
  exact h.2 "/usr/bin" (by decide) (by decide) (by decide)

/-- C8: every normalized parameter takes its type from the schema type field
with integer and number mapping to NUMBER and unknown or absent types to
STRING, and is required exactly when its name is a member of the required
array (a missing required array making everything optional). -/
theorem c8_parameter_normalization (props : List (String × RawSchemaProp))
    (required : Option (List String)) (desc : String) :
    ((extractParametersFromSchema props required desc).map (fun t => (t.name, t.type, t.required))
      = props.map (fun nv => (nv.1, jsTypeToParamType nv.2.type, (required.getD []).contains nv.1)))
    ∧ jsTypeToParamType (some "integer") = ToolParameterType.NUMBER
    ∧ jsTypeToParamType (some "number") = ToolParameterType.NUMBER
    ∧ jsTypeToParamType none = ToolParameterType.STRING
    ∧ (∀ s, s ≠ "number" → s ≠ "integer" → s ≠ "boolean" → s ≠ "array" → s ≠ "object" →
        jsTypeToParamType (some s) = ToolParameterType.STRING) := by
  refine ⟨?_, rfl, rfl, rfl, ?_⟩
  · rw [extractParametersFromSchema, List.map_map]
    rfl
  · intro s h1 h2 h3 h4 h5
    unfold jsTypeToParamType
    split <;> simp_all

/-- Witness for C8 at a concrete schema: an integer property listed in
required becomes a required NUMBER, an unknown-typed property absent from
required becomes an optional STRING. -/
theorem c8_witness :
    ((extractParametersFromSchema [("x", { type := some "integer" }), ("y", { type := some "wut" })]
        (some ["x"]) "").map (fun t => (t.name, t.type, t.required))
      = [("x", ToolParameterType.NUMBER, true), ("y", ToolParameterType.STRING, false)])
    ∧ jsTypeToParamType (some "wut") = ToolParameterType.STRING := by
  have h := c8_parameter_normalization
    [("x", { type := some "integer" }), ("y", { type := some "wut" })] (some ["x"]) ""
  constructor
  · rw [h.1]; decide
  · exact h.2.2.2.2 "wut" (by decide) (by decide) (by decide) (by decide) (by decide)

/-- C9: for a LocalProcess connect with executable uv, a nonempty working
directory, and arguments containing neither the long nor the short
directory flag, the spawned plan injects the directory flag and directory in
front of the arguments and clears the working-directory spawn option. -/
theorem c9_uv_directory_rewrite (args : List String) (d : String)
    (hd : d ≠ "") (h1 : "--directory" ∉ args) (h2 : "-d" ∉ args) :
    prepareStdioSpawn "uv" args (some d) =
      { command := "uv", args := "--directory" :: d :: args, cwd := none } := by
  simp [prepareStdioSpawn, hd, h1, h2]

/-- Witness for C9: the end-to-end scenario of the spec, executable uv with
args run server.py and a working directory. -/
theorem c9_witness :
    prepareStdioSpawn "uv" ["run", "server.py"] (some "/workdir") =
      { command := "uv", args := ["--directory", "/workdir", "run", "server.py"], cwd := none } :=
  c9_uv_directory_rewrite ["run", "server.py"] "/workdir" (by decide) (by decide) (by decide)

/-- C10: when a session is registered and the underlying close throws,
disconnect returns failure and leaves the registry unchanged (the name still
counts as connected); the entry is removed exactly by a disconnect whose
close succeeds. -/
theorem c10_disconnect_error_keeps_registry (s : ClientRegistry) (i : Nat)
    (h : s.activeClient = some i) :
    (mcpDisconnect s false).2 = false
    ∧ (mcpDisconnect s false).1 = s
    ∧ mcpIsServerConnected (mcpDisconnect s false).1 = true
    ∧ (mcpDisconnect s true).1.activeClient = none
    ∧ (mcpDisconnect s true).2 = true := by
  simp [mcpDisconnect, mcpIsServerConnected, h]

/-- Witness for C10 at a concrete registry state with session 3 registered. -/
theorem c10_witness :
    (mcpDisconnect ⟨some 3, [3], 4⟩ false).2 = false
    ∧ (mcpDisconnect ⟨some 3, [3], 4⟩ false).1 = (⟨some 3, [3], 4⟩ : ClientRegistry)
    ∧ mcpIsServerConnected (mcpDisconnect ⟨some 3, [3], 4⟩ false).1 = true
    ∧ (mcpDisconnect ⟨some 3, [3], 4⟩ true).1.activeClient = none
    ∧ (mcpDisconnect ⟨some 3, [3], 4⟩ true).2 = true :=
  c10_disconnect_error_keeps_registry ⟨some 3, [3], 4⟩ 3 rfl
